import Mathlib

/-!
Shallow embedding of `src/pipelines/gedi_extract_l4a.py`, the GEDI L4A
HDF5-to-CSV extraction pipeline: the variable schema (`GediVars`,
`gedi_vars`, `group_vars`), the sentinel fill lists (`filled_vars_float`,
`filled_vars_byte`), the per-beam assembly / sentinel-cleaning /
row-filtering steps of `write_csv`, and the filename guard of
`extract_values`.

Cells of a pandas DataFrame are modelled by the inductive `Cell` (integers,
rationals standing for the float payloads, strings, and `na` for NaN /
missing).  A DataFrame is a `Table`: a list of column names plus a list of
rows.  Steps of the source that can raise a Python exception (pandas
`.loc[:, cols]` with a missing label raises `KeyError`; `df.lat_lowestmode`
attribute access on a frame without that column raises `AttributeError`)
are embedded as `Except String` values.
-/

namespace GediL4A

/-- A single value of a table cell: Python int, float (modelled exactly as
a rational `num / den`), string, or the missing marker (NaN / None). -/
inductive Cell where
  | intV (z : Int)
  | floatV (num : Int) (den : Nat)
  | strV (s : String)
  | na
deriving DecidableEq, Repr

/-- Lexicographic comparison of character lists by code point. -/
def charListLe : List Char → List Char → Bool
  | [], _ => true
  | _ :: _, [] => false
  | a :: as, b :: bs =>
      if a.val.toNat < b.val.toNat then true
      else if b.val.toNat < a.val.toNat then false
      else charListLe as bs

/-- Bool-valued lexicographic order on strings, used for `sorted(...)`. -/
def strLe (a b : String) : Bool := charListLe a.data b.data

instance : DecidableRel (fun a b : String => strLe a b = true) :=
  fun a b => instDecidableEqBool (strLe a b) true

/-- The schema dataclass `GediVars` of the source: three name lists grouped
by numeric kind. -/
structure GediVars where
  integer_variables : List String := []
  float_variables : List String := []
  string_variables : List String := []
deriving DecidableEq, Repr

/-- `GediVars.numeric_vars`: all numeric variables sorted alphanumerically
(`sorted(itertools.chain(integer_variables, float_variables))`). -/
def GediVars.numeric_vars (g : GediVars) : List String :=
  (g.integer_variables ++ g.float_variables).insertionSort
    (fun a b => strLe a b = true)

/-- `GediVars.all_vars`: all variables sorted alphanumerically
(`sorted(itertools.chain(numeric_vars(), string_variables))`). -/
def GediVars.all_vars (g : GediVars) : List String :=
  (g.numeric_vars ++ g.string_variables).insertionSort
    (fun a b => strLe a b = true)

/-- The top-level schema instance `gedi_vars` of the source. -/
def gedi_vars : GediVars :=
  { integer_variables :=
      [ "algorithm_run_flag", "beam", "channel", "degrade_flag",
        "l2_quality_flag", "l4_quality_flag", "master_int",
        "predictor_limit_flag", "response_limit_flag", "selected_algorithm",
        "selected_mode", "selected_mode_flag", "surface_flag" ]
    float_variables :=
      [ "agbd", "agbd_pi_lower", "agbd_pi_upper", "agbd_se", "agbd_t",
        "agbd_t_se", "delta_time", "elev_lowestmode", "lat_lowestmode",
        "lon_lowestmode", "master_frac", "sensitivity", "solar_elevation" ]
    string_variables := [ "shot_number", "predict_stratum" ] }

/-- The sub-group schema dictionary `group_vars`, in its insertion order
(`agbd_prediction`, `geolocation`, `land_cover_data`). -/
def group_vars : List (String × GediVars) :=
  [ ("agbd_prediction",
     { integer_variables :=
         [ "algorithm_run_flag_a1", "algorithm_run_flag_a10",
           "algorithm_run_flag_a2", "algorithm_run_flag_a3",
           "algorithm_run_flag_a4", "algorithm_run_flag_a5",
           "algorithm_run_flag_a6",
           "l2_quality_flag_a1", "l2_quality_flag_a10", "l2_quality_flag_a2",
           "l2_quality_flag_a3", "l2_quality_flag_a4", "l2_quality_flag_a5",
           "l2_quality_flag_a6",
           "l4_quality_flag_a1", "l4_quality_flag_a10", "l4_quality_flag_a2",
           "l4_quality_flag_a3", "l4_quality_flag_a4", "l4_quality_flag_a5",
           "l4_quality_flag_a6",
           "predictor_limit_flag_a1", "predictor_limit_flag_a10",
           "predictor_limit_flag_a2", "predictor_limit_flag_a3",
           "predictor_limit_flag_a4", "predictor_limit_flag_a5",
           "predictor_limit_flag_a6",
           "response_limit_flag_a1", "response_limit_flag_a10",
           "response_limit_flag_a2", "response_limit_flag_a3",
           "response_limit_flag_a4", "response_limit_flag_a5",
           "response_limit_flag_a6",
           "selected_mode_a1", "selected_mode_a10", "selected_mode_a2",
           "selected_mode_a3", "selected_mode_a4", "selected_mode_a5",
           "selected_mode_a6",
           "selected_mode_flag_a1", "selected_mode_flag_a10",
           "selected_mode_flag_a2", "selected_mode_flag_a3",
           "selected_mode_flag_a4", "selected_mode_flag_a5",
           "selected_mode_flag_a6" ]
       float_variables :=
         [ "agbd_a1", "agbd_a10", "agbd_a2", "agbd_a3", "agbd_a4", "agbd_a5",
           "agbd_a6",
           "agbd_pi_lower_a1", "agbd_pi_lower_a10", "agbd_pi_lower_a2",
           "agbd_pi_lower_a3", "agbd_pi_lower_a4", "agbd_pi_lower_a5",
           "agbd_pi_lower_a6",
           "agbd_pi_upper_a1", "agbd_pi_upper_a10", "agbd_pi_upper_a2",
           "agbd_pi_upper_a3", "agbd_pi_upper_a4", "agbd_pi_upper_a5",
           "agbd_pi_upper_a6",
           "agbd_se_a1", "agbd_se_a10", "agbd_se_a2", "agbd_se_a3",
           "agbd_se_a4", "agbd_se_a5", "agbd_se_a6",
           "agbd_t_a1", "agbd_t_a10", "agbd_t_a2", "agbd_t_a3", "agbd_t_a4",
           "agbd_t_a5", "agbd_t_a6",
           "agbd_t_pi_lower_a1", "agbd_t_pi_lower_a10", "agbd_t_pi_lower_a2",
           "agbd_t_pi_lower_a3", "agbd_t_pi_lower_a4", "agbd_t_pi_lower_a5",
           "agbd_t_pi_lower_a6",
           "agbd_t_pi_upper_a1", "agbd_t_pi_upper_a10", "agbd_t_pi_upper_a2",
           "agbd_t_pi_upper_a3", "agbd_t_pi_upper_a4", "agbd_t_pi_upper_a5",
           "agbd_t_pi_upper_a6",
           "agbd_t_se_a1", "agbd_t_se_a10", "agbd_t_se_a2", "agbd_t_se_a3",
           "agbd_t_se_a4", "agbd_t_se_a5", "agbd_t_se_a6" ] }),
    ("geolocation",
     { integer_variables := [ "stale_return_flag" ]
       float_variables :=
         [ "elev_lowestmode_a1", "elev_lowestmode_a10", "elev_lowestmode_a2",
           "elev_lowestmode_a3", "elev_lowestmode_a4", "elev_lowestmode_a5",
           "elev_lowestmode_a6",
           "lat_lowestmode_a1", "lat_lowestmode_a10", "lat_lowestmode_a2",
           "lat_lowestmode_a3", "lat_lowestmode_a4", "lat_lowestmode_a5",
           "lat_lowestmode_a6",
           "lon_lowestmode_a1", "lon_lowestmode_a10", "lon_lowestmode_a2",
           "lon_lowestmode_a3", "lon_lowestmode_a4", "lon_lowestmode_a5",
           "lon_lowestmode_a6",
           "sensitivity_a1", "sensitivity_a10", "sensitivity_a2",
           "sensitivity_a3", "sensitivity_a4", "sensitivity_a5",
           "sensitivity_a6" ] }),
    ("land_cover_data",
     { integer_variables :=
         [ "landsat_water_persistence", "leaf_off_doy", "leaf_off_flag",
           "leaf_on_cycle", "leaf_on_doy", "pft_class", "region_class",
           "urban_focal_window_size", "urban_proportion" ]
       float_variables := [ "landsat_treecover" ] }) ]

/-- The list `filled_vars_float` of the source: float columns whose
`-9999` sentinel is replaced by NaN. -/
def filled_vars_float : List String :=
  [ "agbd", "agbd_pi_lower", "agbd_pi_upper", "agbd_se", "agbd_t",
    "agbd_t_se",
    "agbd_a1", "agbd_a10", "agbd_a2", "agbd_a3", "agbd_a4", "agbd_a5",
    "agbd_a6",
    "agbd_pi_lower_a1", "agbd_pi_lower_a10", "agbd_pi_lower_a2",
    "agbd_pi_lower_a3", "agbd_pi_lower_a4", "agbd_pi_lower_a5",
    "agbd_pi_lower_a6",
    "agbd_pi_upper_a1", "agbd_pi_upper_a10", "agbd_pi_upper_a2",
    "agbd_pi_upper_a3", "agbd_pi_upper_a4", "agbd_pi_upper_a5",
    "agbd_pi_upper_a6",
    "agbd_se_a1", "agbd_se_a10", "agbd_se_a2", "agbd_se_a3", "agbd_se_a4",
    "agbd_se_a5", "agbd_se_a6",
    "agbd_t_a1", "agbd_t_a10", "agbd_t_a2", "agbd_t_a3", "agbd_t_a4",
    "agbd_t_a5", "agbd_t_a6",
    "agbd_t_pi_lower_a1", "agbd_t_pi_lower_a10", "agbd_t_pi_lower_a2",
    "agbd_t_pi_lower_a3", "agbd_t_pi_lower_a4", "agbd_t_pi_lower_a5",
    "agbd_t_pi_lower_a6",
    "agbd_t_pi_upper_a1", "agbd_t_pi_upper_a10", "agbd_t_pi_upper_a2",
    "agbd_t_pi_upper_a3", "agbd_t_pi_upper_a4", "agbd_t_pi_upper_a5",
    "agbd_t_pi_upper_a6",
    "agbd_t_se_a1", "agbd_t_se_a10", "agbd_t_se_a2", "agbd_t_se_a3",
    "agbd_t_se_a4", "agbd_t_se_a5", "agbd_t_se_a6" ]

/-- The list `filled_vars_byte` of the source: byte flag columns whose
`255` sentinel is replaced by NaN. -/
def filled_vars_byte : List String :=
  [ "predictor_limit_flag", "predictor_limit_flag_a1",
    "predictor_limit_flag_a10", "predictor_limit_flag_a2",
    "predictor_limit_flag_a3", "predictor_limit_flag_a4",
    "predictor_limit_flag_a5", "predictor_limit_flag_a6",
    "response_limit_flag", "response_limit_flag_a1",
    "response_limit_flag_a10", "response_limit_flag_a2",
    "response_limit_flag_a3", "response_limit_flag_a4",
    "response_limit_flag_a5", "response_limit_flag_a6" ]

/-- A pandas DataFrame: column names plus rows of cells.  Rows are kept in
order; a cell is addressed by its column position in `cols`. -/
structure Table where
  cols : List String
  rows : List (List Cell)
deriving DecidableEq, Repr

/-- The empty DataFrame `pd.DataFrame()`. -/
def Table.empty : Table := { cols := [], rows := [] }

/-- Cell at row `i`, column named `c` (missing column or row yields `na`,
matching how the model treats absent data). -/
def Table.cell (t : Table) (c : String) (i : Nat) : Cell :=
  match t.cols.indexOf? c with
  | some j => (t.rows.getD i []).getD j Cell.na
  | none => Cell.na

/-- Does column `c` hold a non-missing value in row `r` (given the column
list `cols`)?  Mirrors `df.<c>.notnull()` on one row. -/
def rowNotNull (cols : List String) (r : List Cell) (c : String) : Bool :=
  match cols.indexOf? c with
  | some j => r.getD j Cell.na != Cell.na
  | none => false

/-- Extend each row with the matching entry of a new column: row `i` gets
`values[i]`, a missing entry is padded with `na`, and entries beyond the
row count are dropped. -/
def appendCells : List (List Cell) → List Cell → List (List Cell)
  | [], _ => []
  | r :: rs, [] => (r ++ [Cell.na]) :: appendCells rs []
  | r :: rs, v :: vs => (r ++ [v]) :: appendCells rs vs

/-- Append one column to a DataFrame (`df[name] = values`).  If the frame
has no columns yet, the new column determines the row count.  Modelled from
the spec: shape/length mismatches are the column-fetch collaborator's
contract; here a too-short column is padded with `na` and a too-long one is
truncated to the existing row count.  The given schemas produce no
duplicate column names, so a duplicate `name` is simply appended. -/
def Table.appendCol (t : Table) (name : String) (values : List Cell) : Table :=
  if t.cols.isEmpty then
    { cols := [name], rows := values.map (fun v => [v]) }
  else
    { cols := t.cols ++ [name]
      rows := appendCells t.rows values }

/-- A hierarchical (HDF5) source file: top-level keys in native order, each
mapping to an association list from dataset path (relative to the key) to
the dataset's values. -/
structure H5Source where
  groups : List (String × List (String × List Cell))
deriving DecidableEq, Repr

/-- Dataset lookup at `<k>/<path>` in the source. -/
def H5Source.dataset (src : H5Source) (k path : String) : Option (List Cell) :=
  (src.groups.lookup k).bind (fun ds => ds.lookup path)

/-- Trailing segment of a `group/variable` path (the part after the last
slash): the output column name. -/
def lastSegment (p : String) : String :=
  (p.data.foldl (fun acc c => if c = '/' then [] else acc ++ [c]) []).asString

/-- Modelled from the spec: the external column-fetch collaborator
`gedi_lib.hdf_to_df(fh, k, v, df)` appends the dataset at path `<k>/<v>`
as a column named for the path's trailing segment, and is a no-op on the
target table if the path does not exist in the source. -/
def hdf_to_df (src : H5Source) (k v : String) (df : Table) : Table :=
  match src.dataset k v with
  | none => df
  | some values => df.appendCol (lastSegment v) values

/-- Per-beam assembly loop of `write_csv`: every `gedi_vars.all_vars()`
column from the beam's top level, then every sub-group schema's columns
from `<group>/<variable>`, in `group_vars` order. -/
def assemble (src : H5Source) (k : String) : Table :=
  let top := gedi_vars.all_vars.foldl (fun df v => hdf_to_df src k v df) Table.empty
  group_vars.foldl
    (fun df gv =>
      gv.2.all_vars.foldl (fun df v => hdf_to_df src k (gv.1 ++ "/" ++ v) df) df)
    top

/-- Does cell `c` compare numerically equal to the integer `n`
(pandas `.replace(to_replace=n, ...)` matches both int and float cells)? -/
def Cell.eqNum (c : Cell) (n : Int) : Bool :=
  match c with
  | Cell.intV z => z == n
  | Cell.floatV num den => num == n * (den : Int)
  | _ => false

/-- Apply `f` to each cell of a row paired with its column name; cells
beyond the column list are left unchanged. -/
def mapCols (f : String → Cell → Cell) : List String → List Cell → List Cell
  | _, [] => []
  | [], r => r
  | c :: cs, v :: vs => f c v :: mapCols f cs vs

/-- Pointwise effect of `.replace(to_replace=sentinel, value=np.nan)`
restricted to the columns of `fill`: a cell of a listed column numerically
equal to the sentinel becomes `na`; every other cell is unchanged. -/
def substCell (fill : List String) (sentinel : Int) (c : String) (v : Cell) :
    Cell :=
  if fill.contains c && v.eqNum sentinel then Cell.na else v

/-- One sentinel substitution
`df[fill] = df.loc[:, fill].replace(to_replace=sentinel, value=np.nan)`:
in every column named in `fill`, a cell numerically equal to `sentinel`
becomes `na`; all other cells are unchanged.  pandas `.loc[:, fill]`
raises `KeyError` when any label of `fill` is absent from the frame,
modelled as `Except.error`. -/
def replaceFill (fill : List String) (sentinel : Int) (t : Table) :
    Except String Table :=
  if fill.all t.cols.contains then
    Except.ok
      { cols := t.cols
        rows := t.rows.map (mapCols (substCell fill sentinel) t.cols) }
  else
    Except.error "KeyError"

/-- The sentinel-cleaning step of `write_csv`: the float pass
(`-9999` → NaN over `filled_vars_float`) followed by the byte pass
(`255` → NaN over `filled_vars_byte`). -/
def cleanSentinels (t : Table) : Except String Table :=
  match replaceFill filled_vars_float (-9999) t with
  | Except.error e => Except.error e
  | Except.ok t1 => replaceFill filled_vars_byte 255 t1

/-- The row-validity filter of `write_csv`:
`df = df[df.lat_lowestmode.notnull()]` then
`df = df[df.lon_lowestmode.notnull()]`.  Attribute access on a frame
lacking the column raises `AttributeError`, modelled as `Except.error`. -/
def filterValidRows (t : Table) : Except String Table :=
  if t.cols.contains "lat_lowestmode" then
    if t.cols.contains "lon_lowestmode" then
      Except.ok
        { cols := t.cols
          rows := (t.rows.filter
              (fun r => rowNotNull t.cols r "lat_lowestmode")).filter
            (fun r => rowNotNull t.cols r "lon_lowestmode") }
    else
      Except.error "AttributeError"
  else
    Except.error "AttributeError"

/-- Modelled from the spec: the external collaborator
`gedi_lib.add_shot_number_breakdown` adds derived identifier columns in
place and must not remove or reorder existing rows or columns.  No claim
concerns the derived columns, so it is modelled as preserving the table. -/
def add_shot_number_breakdown (t : Table) : Table := t

/-- One line of the CSV output: the header line or one data row. -/
inductive CsvLine where
  | headerLine (cols : List String)
  | dataRow (cells : List Cell)
deriving DecidableEq, Repr

/-- `df.to_csv(..., header=withHeader, mode="a")`: the header line when
requested, then the data rows. -/
def Table.toCsv (t : Table) (withHeader : Bool) : List CsvLine :=
  (if withHeader then [CsvLine.headerLine t.cols] else []) ++
    t.rows.map CsvLine.dataRow

/-- `s.startswith(p)`: is `p` a prefix of `s`? -/
def strStartsWith (s p : String) : Bool := p.data.isPrefixOf s.data

/-- `s.endswith(p)`: is `p` a suffix of `s`? -/
def strEndsWith (s p : String) : Bool := p.data.reverse.isPrefixOf s.data.reverse

/-- The beam keys of the source: its native key order restricted to keys
starting with `BEAM` (all other keys are skipped by `write_csv`). -/
def beamKeys (src : H5Source) : List String :=
  (src.groups.map Prod.fst).filter (fun k => strStartsWith k "BEAM")

/-- The whole per-beam pipeline of `write_csv` for one beam: assemble,
clean sentinels, filter rows, augment. -/
def processBeam (src : H5Source) (k : String) : Except String Table :=
  match cleanSentinels (assemble src k) with
  | Except.error e => Except.error e
  | Except.ok df =>
    match filterValidRows df with
    | Except.error e => Except.error e
    | Except.ok df2 => Except.ok (add_shot_number_breakdown df2)

/-- The beam loop of `write_csv`, threading the `is_first` header flag:
each processed beam appends its CSV lines, with the header emitted only
for the first processed beam. -/
def writeRows (src : H5Source) : List String → Bool → Except String (List CsvLine)
  | [], _ => Except.ok []
  | k :: ks, isFirst =>
    match processBeam src k with
    | Except.error e => Except.error e
    | Except.ok t =>
      match writeRows src ks false with
      | Except.error e => Except.error e
      | Except.ok rest => Except.ok (t.toCsv isFirst ++ rest)

/-- `write_csv(l4a_hdf_fh, csv_file)`: run the pipeline over every beam
key of the source, in order, accumulating the CSV lines. -/
def write_csv (src : H5Source) : Except String (List CsvLine) :=
  writeRows src (beamKeys src) true

/-- `os.path.basename`: the part of the path after the last slash. -/
def osBasename (p : String) : String := lastSegment p

instance {ε α : Type} [DecidableEq ε] [DecidableEq α] :
    DecidableEq (Except ε α) := fun a b =>
  match a, b with
  | Except.error e, Except.error f =>
      if h : e = f then Decidable.isTrue (by rw [h])
      else Decidable.isFalse (fun hh => h (by cases hh; rfl))
  | Except.error _, Except.ok _ => Decidable.isFalse (fun hh => by cases hh)
  | Except.ok _, Except.error _ => Decidable.isFalse (fun hh => by cases hh)
  | Except.ok x, Except.ok y =>
      if h : x = y then Decidable.isTrue (by rw [h])
      else Decidable.isFalse (fun hh => h (by cases hh; rfl))

/-- Observable outcome of `extract_values`: either the guard failed (an
error is logged and the destination is never opened, so no file content
exists), or the destination file was opened (truncated) and holds the
given content — itself an error if the beam loop raised mid-run. -/
inductive ExtractResult where
  | errorNoOutput
  | output (content : Except String (List CsvLine))
deriving DecidableEq, Repr

/-- `extract_values([l4a_path], output_path)` for its single input path:
the filename guard (`basename.startswith("GEDI") and
basename.endswith(".h5")`) aborts with a logged error before opening
either file; otherwise the destination is opened for writing and
`write_csv` runs. -/
def extract_values (l4a_path : String) (src : H5Source) : ExtractResult :=
  let basename := osBasename l4a_path
  if !strStartsWith basename "GEDI" || !strEndsWith basename ".h5" then
    ExtractResult.errorNoOutput
  else
    ExtractResult.output (write_csv src)

/-! ### Concrete sources used to exercise the pipeline -/

/-- Every dataset path `write_csv` tries to fetch: the top-level schema
names, then each sub-group's names under their `group/` prefix. -/
def allPaths : List String :=
  gedi_vars.all_vars ++
    group_vars.foldr
      (fun gv acc => gv.2.all_vars.map (fun v => gv.1 ++ "/" ++ v) ++ acc) []

/-- The dataset paths a run cannot do without: every fill-list column (the
cleaning step raises `KeyError` on an absent one) and the two coordinate
columns (the filter raises `AttributeError` on an absent one).  Spelled
out as a literal so that concrete runs evaluate quickly; the lemma
`neededPaths_eq` checks it against `allPaths` and the fill lists. -/
def neededPaths : List String :=
  [ "agbd", "agbd_pi_lower", "agbd_pi_upper", "agbd_se", "agbd_t",
    "agbd_t_se", "lat_lowestmode", "lon_lowestmode", "predictor_limit_flag",
    "response_limit_flag",
    "agbd_prediction/agbd_a1", "agbd_prediction/agbd_a10",
    "agbd_prediction/agbd_a2", "agbd_prediction/agbd_a3",
    "agbd_prediction/agbd_a4", "agbd_prediction/agbd_a5",
    "agbd_prediction/agbd_a6",
    "agbd_prediction/agbd_pi_lower_a1", "agbd_prediction/agbd_pi_lower_a10",
    "agbd_prediction/agbd_pi_lower_a2", "agbd_prediction/agbd_pi_lower_a3",
    "agbd_prediction/agbd_pi_lower_a4", "agbd_prediction/agbd_pi_lower_a5",
    "agbd_prediction/agbd_pi_lower_a6",
    "agbd_prediction/agbd_pi_upper_a1", "agbd_prediction/agbd_pi_upper_a10",
    "agbd_prediction/agbd_pi_upper_a2", "agbd_prediction/agbd_pi_upper_a3",
    "agbd_prediction/agbd_pi_upper_a4", "agbd_prediction/agbd_pi_upper_a5",
    "agbd_prediction/agbd_pi_upper_a6",
    "agbd_prediction/agbd_se_a1", "agbd_prediction/agbd_se_a10",
    "agbd_prediction/agbd_se_a2", "agbd_prediction/agbd_se_a3",
    "agbd_prediction/agbd_se_a4", "agbd_prediction/agbd_se_a5",
    "agbd_prediction/agbd_se_a6",
    "agbd_prediction/agbd_t_a1", "agbd_prediction/agbd_t_a10",
    "agbd_prediction/agbd_t_a2", "agbd_prediction/agbd_t_a3",
    "agbd_prediction/agbd_t_a4", "agbd_prediction/agbd_t_a5",
    "agbd_prediction/agbd_t_a6",
    "agbd_prediction/agbd_t_pi_lower_a1",
    "agbd_prediction/agbd_t_pi_lower_a10",
    "agbd_prediction/agbd_t_pi_lower_a2",
    "agbd_prediction/agbd_t_pi_lower_a3",
    "agbd_prediction/agbd_t_pi_lower_a4",
    "agbd_prediction/agbd_t_pi_lower_a5",
    "agbd_prediction/agbd_t_pi_lower_a6",
    "agbd_prediction/agbd_t_pi_upper_a1",
    "agbd_prediction/agbd_t_pi_upper_a10",
    "agbd_prediction/agbd_t_pi_upper_a2",
    "agbd_prediction/agbd_t_pi_upper_a3",
    "agbd_prediction/agbd_t_pi_upper_a4",
    "agbd_prediction/agbd_t_pi_upper_a5",
    "agbd_prediction/agbd_t_pi_upper_a6",
    "agbd_prediction/agbd_t_se_a1", "agbd_prediction/agbd_t_se_a10",
    "agbd_prediction/agbd_t_se_a2", "agbd_prediction/agbd_t_se_a3",
    "agbd_prediction/agbd_t_se_a4", "agbd_prediction/agbd_t_se_a5",
    "agbd_prediction/agbd_t_se_a6",
    "agbd_prediction/predictor_limit_flag_a1",
    "agbd_prediction/predictor_limit_flag_a10",
    "agbd_prediction/predictor_limit_flag_a2",
    "agbd_prediction/predictor_limit_flag_a3",
    "agbd_prediction/predictor_limit_flag_a4",
    "agbd_prediction/predictor_limit_flag_a5",
    "agbd_prediction/predictor_limit_flag_a6",
    "agbd_prediction/response_limit_flag_a1",
    "agbd_prediction/response_limit_flag_a10",
    "agbd_prediction/response_limit_flag_a2",
    "agbd_prediction/response_limit_flag_a3",
    "agbd_prediction/response_limit_flag_a4",
    "agbd_prediction/response_limit_flag_a5",
    "agbd_prediction/response_limit_flag_a6" ]

/-- A beam group holding the datasets of `neededPaths` with `n` shots
(default value `0.0`), with the datasets in `overrides` replaced.  All
other schema-declared paths are absent (the column-fetch collaborator
skips them). -/
def fullBeam (n : Nat) (overrides : List (String × List Cell)) :
    List (String × List Cell) :=
  overrides ++ neededPaths.map (fun p => (p, List.replicate n (Cell.floatV 0 1)))

/-- The scenario-A shot data: `lat_lowestmode=[12.5, -9999]`,
`lon_lowestmode=[45.0, 45.0]`, `agbd=[100.0, -9999]`. -/
def scenarioA : List (String × List Cell) :=
  [ ("lat_lowestmode", [Cell.floatV 25 2, Cell.floatV (-9999) 1]),
    ("lon_lowestmode", [Cell.floatV 45 1, Cell.floatV 45 1]),
    ("agbd", [Cell.floatV 100 1, Cell.floatV (-9999) 1]) ]

/-- Scenario A read literally: a source whose single beam group holds
exactly the three datasets of the scenario and nothing else. -/
def srcA : H5Source := { groups := [("BEAM0000", scenarioA)] }

/-- The scenario-A beam read charitably: the beam also holds every
fill-list column (with default values), so the cleaning step has all the
columns it insists on. -/
def beamA : List (String × List Cell) := fullBeam 2 scenarioA

/-- A source holding the charitable scenario-A beam. -/
def srcAfull : H5Source := { groups := [("BEAM0000", beamA)] }

/-- The column list the charitable scenario-A beam assembles to: the
trailing segments of `neededPaths`, in assembly order. -/
def colsA : List String :=
  [ "agbd", "agbd_pi_lower", "agbd_pi_upper", "agbd_se", "agbd_t",
    "agbd_t_se", "lat_lowestmode", "lon_lowestmode", "predictor_limit_flag",
    "response_limit_flag",
    "agbd_a1", "agbd_a10", "agbd_a2", "agbd_a3", "agbd_a4", "agbd_a5",
    "agbd_a6",
    "agbd_pi_lower_a1", "agbd_pi_lower_a10", "agbd_pi_lower_a2",
    "agbd_pi_lower_a3", "agbd_pi_lower_a4", "agbd_pi_lower_a5",
    "agbd_pi_lower_a6",
    "agbd_pi_upper_a1", "agbd_pi_upper_a10", "agbd_pi_upper_a2",
    "agbd_pi_upper_a3", "agbd_pi_upper_a4", "agbd_pi_upper_a5",
    "agbd_pi_upper_a6",
    "agbd_se_a1", "agbd_se_a10", "agbd_se_a2", "agbd_se_a3", "agbd_se_a4",
    "agbd_se_a5", "agbd_se_a6",
    "agbd_t_a1", "agbd_t_a10", "agbd_t_a2", "agbd_t_a3", "agbd_t_a4",
    "agbd_t_a5", "agbd_t_a6",
    "agbd_t_pi_lower_a1", "agbd_t_pi_lower_a10", "agbd_t_pi_lower_a2",
    "agbd_t_pi_lower_a3", "agbd_t_pi_lower_a4", "agbd_t_pi_lower_a5",
    "agbd_t_pi_lower_a6",
    "agbd_t_pi_upper_a1", "agbd_t_pi_upper_a10", "agbd_t_pi_upper_a2",
    "agbd_t_pi_upper_a3", "agbd_t_pi_upper_a4", "agbd_t_pi_upper_a5",
    "agbd_t_pi_upper_a6",
    "agbd_t_se_a1", "agbd_t_se_a10", "agbd_t_se_a2", "agbd_t_se_a3",
    "agbd_t_se_a4", "agbd_t_se_a5", "agbd_t_se_a6",
    "predictor_limit_flag_a1", "predictor_limit_flag_a10",
    "predictor_limit_flag_a2", "predictor_limit_flag_a3",
    "predictor_limit_flag_a4", "predictor_limit_flag_a5",
    "predictor_limit_flag_a6",
    "response_limit_flag_a1", "response_limit_flag_a10",
    "response_limit_flag_a2", "response_limit_flag_a3",
    "response_limit_flag_a4", "response_limit_flag_a5",
    "response_limit_flag_a6" ]

/-- The default cell value of the charitable beam. -/
def zeroF : Cell := Cell.floatV 0 1

/-- Row 1 of the assembled charitable beam (`agbd=100`, `lat=12.5`,
`lon=45`, everything else `0.0`). -/
def rowA1 : List Cell :=
  Cell.floatV 100 1 :: List.replicate 5 zeroF ++
    Cell.floatV 25 2 :: Cell.floatV 45 1 :: List.replicate 72 zeroF

/-- Row 2 of the assembled charitable beam, before cleaning
(`agbd=-9999`, `lat=-9999`, `lon=45`). -/
def rowA2 : List Cell :=
  Cell.floatV (-9999) 1 :: List.replicate 5 zeroF ++
    Cell.floatV (-9999) 1 :: Cell.floatV 45 1 :: List.replicate 72 zeroF

/-- Row 2 after cleaning: only `agbd` (a fill-list column) became missing;
the sentinel latitude is untouched because `lat_lowestmode` is in neither
fill list. -/
def rowA2c : List Cell :=
  Cell.na :: List.replicate 5 zeroF ++
    Cell.floatV (-9999) 1 :: Cell.floatV 45 1 :: List.replicate 72 zeroF

/-- The assembled charitable scenario-A beam table. -/
def tA0 : Table := { cols := colsA, rows := [rowA1, rowA2] }

/-- The cleaned charitable scenario-A beam table. -/
def tA1 : Table := { cols := colsA, rows := [rowA1, rowA2c] }

/-- The claimed pointwise contract of the whole sentinel-cleaning step:
`-9999` becomes missing in `filled_vars_float` columns, `255` becomes
missing in `filled_vars_byte` columns, and every other cell — other
columns, and non-sentinel values such as `254` — is untouched. -/
def cleanCellSpec (c : String) (v : Cell) : Cell :=
  if filled_vars_float.contains c && v.eqNum (-9999) then Cell.na
  else if filled_vars_byte.contains c && v.eqNum 255 then Cell.na
  else v

/-- Is this CSV line the header line? -/
def isHeaderLine : CsvLine → Bool
  | CsvLine.headerLine _ => true
  | CsvLine.dataRow _ => false

/-- The CSV lines produced for a list of per-beam tables, the first of
them carrying the header when `b` is `true`. -/
def csvOfAux (b : Bool) : List Table → List CsvLine
  | [] => []
  | t :: rest => t.toCsv b ++ csvOfAux false rest

/-- The CSV lines produced for a list of per-beam tables: the header with
the first, only data rows afterwards. -/
def csvOf (ts : List Table) : List CsvLine := csvOfAux true ts

/-- The data lines of a list of per-beam tables, concatenated in beam
order with each beam's rows in their post-filter order. -/
def dataLinesOf : List Table → List CsvLine
  | [] => []
  | t :: ts => t.rows.map CsvLine.dataRow ++ dataLinesOf ts

/-- The per-beam pipeline applied to a list of beam keys in order,
collecting the per-beam tables (stopping at the first raised error). -/
def processBeams (src : H5Source) : List String → Except String (List Table)
  | [] => Except.ok []
  | k :: ks =>
    match processBeam src k with
    | Except.error e => Except.error e
    | Except.ok t =>
      match processBeams src ks with
      | Except.error e => Except.error e
      | Except.ok ts => Except.ok (t :: ts)

/-- A two-column, two-row table whose second row has a missing latitude:
input for exercising the row filter. -/
def tC2 : Table :=
  { cols := ["lat_lowestmode", "lon_lowestmode"]
    rows := [[Cell.floatV 1 1, Cell.floatV 2 1], [Cell.na, Cell.floatV 2 1]] }

/-- The row filter's output on `tC2`: the second row is dropped. -/
def tC2f : Table :=
  { cols := ["lat_lowestmode", "lon_lowestmode"]
    rows := [[Cell.floatV 1 1, Cell.floatV 2 1]] }

/-- A source whose single beam holds only the two coordinate datasets:
every fill-list path is absent. -/
def srcC3 : H5Source :=
  { groups :=
      [ ("BEAM0101",
         [ ("lat_lowestmode", [Cell.floatV 0 1]),
           ("lon_lowestmode", [Cell.floatV 0 1]) ]) ] }

/-- A source with no keys at all. -/
def srcEmpty : H5Source := { groups := [] }

/-- A source with keys but no beam keys. -/
def srcNoBeams : H5Source := { groups := [("METADATA", [])] }

set_option maxRecDepth 100000

set_option maxHeartbeats 4000000

/-- Sentinel cleaning of the assembled charitable beam: only the `agbd`
sentinel of row 2 becomes missing. -/
theorem clean_tA0 : cleanSentinels tA0 = Except.ok tA1 := by decide

/-- The row filter keeps both rows of the cleaned charitable beam: the
sentinel latitude of row 2 is not a missing value. -/
theorem filter_tA1 : filterValidRows tA1 = Except.ok tA1 := by decide

/-! ### Order properties of the string comparison -/

/-- `charListLe` is total. -/
theorem charListLe_total : ∀ as bs, charListLe as bs = true ∨ charListLe bs as = true
  | [], _ => Or.inl rfl
  | _ :: _, [] => Or.inr rfl
  | a :: as, b :: bs => by
    rcases Nat.lt_trichotomy a.val.toNat b.val.toNat with h | h | h
    · left; simp [charListLe, h]
    · have h1 : ¬ a.val.toNat < b.val.toNat := by omega
      have h2 : ¬ b.val.toNat < a.val.toNat := by omega
      rcases charListLe_total as bs with hr | hr
      · left; simp [charListLe, h1, h2, hr]
      · right; simp [charListLe, h1, h2, hr]
    · right; simp [charListLe, h]

/-- `charListLe` is transitive. -/
theorem charListLe_trans : ∀ as bs cs, charListLe as bs = true →
    charListLe bs cs = true → charListLe as cs = true
  | [], _, _, _, _ => rfl
  | _ :: _, [], _, h1, _ => by simp [charListLe] at h1
  | _ :: _, _ :: _, [], _, h2 => by simp [charListLe] at h2
  | a :: as, b :: bs, c :: cs, h1, h2 => by
    simp only [charListLe] at h1 h2 ⊢
    rcases Nat.lt_trichotomy a.val.toNat b.val.toNat with hab | hab | hab
    · rcases Nat.lt_trichotomy b.val.toNat c.val.toNat with hbc | hbc | hbc
      · have h : a.val.toNat < c.val.toNat := by omega
        simp [h]
      · have h : a.val.toNat < c.val.toNat := by omega
        simp [h]
      · have h3 : ¬ b.val.toNat < c.val.toNat := by omega
        simp [h3, hbc] at h2
    · have h3 : ¬ a.val.toNat < b.val.toNat := by omega
      have h4 : ¬ b.val.toNat < a.val.toNat := by omega
      simp [h3, h4] at h1
      rcases Nat.lt_trichotomy b.val.toNat c.val.toNat with hbc | hbc | hbc
      · have h : a.val.toNat < c.val.toNat := by omega
        simp [h]
      · have h5 : ¬ a.val.toNat < c.val.toNat := by omega
        have h6 : ¬ c.val.toNat < a.val.toNat := by omega
        have h7 : ¬ b.val.toNat < c.val.toNat := by omega
        have h8 : ¬ c.val.toNat < b.val.toNat := by omega
        simp [h7, h8] at h2
        simp [h5, h6]
        exact charListLe_trans as bs cs h1 h2
      · have h7 : ¬ b.val.toNat < c.val.toNat := by omega
        simp [h7, hbc] at h2
    · have h3 : ¬ a.val.toNat < b.val.toNat := by omega
      simp [h3, hab] at h1

/-- `strLe` is total. -/
theorem strLe_total (a b : String) : strLe a b = true ∨ strLe b a = true :=
  charListLe_total a.data b.data

/-- `strLe` is transitive. -/
theorem strLe_trans (a b c : String) (h1 : strLe a b = true)
    (h2 : strLe b c = true) : strLe a c = true :=
  charListLe_trans a.data b.data c.data h1 h2

/-! ### Pointwise description of `mapCols` -/

/-- Two passes of `mapCols` over the same column list compose pointwise. -/
theorem mapCols_mapCols (f g : String → Cell → Cell) :
    ∀ (cs : List String) (r : List Cell),
      mapCols g cs (mapCols f cs r) = mapCols (fun c v => g c (f c v)) cs r
  | [], [] => rfl
  | [], _ :: _ => rfl
  | _ :: _, [] => rfl
  | c :: cs, v :: r => by
    simp only [mapCols]
    rw [mapCols_mapCols f g cs r]

/-- `mapCols` preserves the row length. -/
theorem length_mapCols (f : String → Cell → Cell) :
    ∀ (cs : List String) (r : List Cell), (mapCols f cs r).length = r.length
  | [], [] => rfl
  | [], _ :: _ => rfl
  | _ :: _, [] => rfl
  | _ :: cs, _ :: r => by simp [mapCols, length_mapCols f cs r]

/-- `mapCols` is determined by the cell function pointwise. -/
theorem mapCols_congr (f g : String → Cell → Cell)
    (h : ∀ c v, f c v = g c v) :
    ∀ (cs : List String) (r : List Cell), mapCols f cs r = mapCols g cs r
  | [], [] => rfl
  | [], _ :: _ => rfl
  | _ :: _, [] => rfl
  | c :: cs, v :: r => by
    simp only [mapCols]
    rw [h c v, mapCols_congr f g h cs r]

/-- `mapCols` with no columns leaves the row unchanged. -/
theorem mapCols_nil (f : String → Cell → Cell) : ∀ r, mapCols f [] r = r
  | [] => rfl
  | _ :: _ => rfl

/-- The cell at position `j` of a `mapCols` image: transformed for a
position both lists cover, the original cell for one only the row covers,
`na` beyond the row. -/
theorem getD_mapCols (f : String → Cell → Cell) :
    ∀ (cs : List String) (r : List Cell) (j : Nat),
      (mapCols f cs r).getD j Cell.na =
        if j < r.length then
          if j < cs.length then f (cs.getD j "") (r.getD j Cell.na)
          else r.getD j Cell.na
        else Cell.na
  | [], r, j => by
    rw [mapCols_nil]
    by_cases h : j < r.length
    · simp [h]
    · rw [List.getD_eq_default _ _ (Nat.le_of_not_lt h)]
      simp [h]
  | _ :: _, [], j => by simp [mapCols]
  | c :: cs, v :: r, 0 => by simp [mapCols]
  | c :: cs, v :: r, j + 1 => by
    simp only [mapCols, List.getD_cons_succ, List.length_cons,
      Nat.add_lt_add_iff_right]
    exact getD_mapCols f cs r j

/-! ### The sentinel-cleaning step, pointwise -/

/-- Inversion of a successful `replaceFill`: every fill column was
present, and the rows were mapped pointwise. -/
theorem replaceFill_ok (fill : List String) (s : Int) (t t2 : Table)
    (h : replaceFill fill s t = Except.ok t2) :
    fill.all t.cols.contains = true ∧
    t2 = { cols := t.cols
           rows := t.rows.map (mapCols (substCell fill s) t.cols) } := by
  unfold replaceFill at h
  split at h
  next hc => exact ⟨hc, by cases h; rfl⟩
  next hc => cases h

/-- Inversion of a successful `cleanSentinels`: both fill lists were fully
present, the columns are unchanged, and the rows are the pointwise float
pass followed by the byte pass. -/
theorem cleanSentinels_ok (t t2 : Table) (h : cleanSentinels t = Except.ok t2) :
    filled_vars_float.all t.cols.contains = true ∧
    filled_vars_byte.all t.cols.contains = true ∧
    t2.cols = t.cols ∧
    t2.rows = t.rows.map
      (mapCols (fun c v => substCell filled_vars_byte 255 c
        (substCell filled_vars_float (-9999) c v)) t.cols) := by
  unfold cleanSentinels at h
  cases h1 : replaceFill filled_vars_float (-9999) t with
  | error e => rw [h1] at h; cases h
  | ok t1 =>
    rw [h1] at h
    obtain ⟨hca, ht1⟩ := replaceFill_ok _ _ _ _ h1
    obtain ⟨hcb, ht2⟩ := replaceFill_ok _ _ _ _ h
    subst ht1
    refine ⟨hca, hcb, ?_, ?_⟩
    · rw [ht2]
    · rw [ht2]
      show (t.rows.map _).map _ = _
      rw [List.map_map]
      refine List.map_congr_left (fun r _ => ?_)
      exact mapCols_mapCols _ _ _ r

/-- A missing cell never compares equal to a sentinel. -/
theorem eqNum_na (n : Int) : Cell.eqNum Cell.na n = false := rfl

/-- `substCell` never changes a missing cell. -/
theorem substCell_na (fill : List String) (s : Int) (c : String) :
    substCell fill s c Cell.na = Cell.na := by
  simp [substCell, eqNum_na]

/-- The float pass followed by the byte pass equals the claimed pointwise
contract `cleanCellSpec`. -/
theorem comb_eq_spec (c : String) (v : Cell) :
    substCell filled_vars_byte 255 c
      (substCell filled_vars_float (-9999) c v) = cleanCellSpec c v := by
  unfold substCell cleanCellSpec
  cases hF : filled_vars_float.contains c <;>
    cases hB : filled_vars_byte.contains c <;>
      cases h9 : Cell.eqNum v (-9999) <;>
        cases h255 : Cell.eqNum v 255 <;>
          simp [hF, hB, h9, h255, eqNum_na]

/-- The pointwise contract never changes a missing cell. -/
theorem cleanCellSpec_na (c : String) : cleanCellSpec c Cell.na = Cell.na := by
  simp [cleanCellSpec, eqNum_na]

/-- The pointwise contract leaves cells of an unlisted (empty-named)
column alone. -/
theorem cleanCellSpec_empty (v : Cell) : cleanCellSpec "" v = v := by
  have h1 : ¬ ("" ∈ filled_vars_float) := by decide
  have h2 : ¬ ("" ∈ filled_vars_byte) := by decide
  simp [cleanCellSpec, h1, h2]

/-- A cleaned cell is a fixed point of the float pass. -/
theorem substF_fix_spec (c : String) (v : Cell) :
    substCell filled_vars_float (-9999) c (cleanCellSpec c v) =
      cleanCellSpec c v := by
  unfold cleanCellSpec substCell
  cases hF : filled_vars_float.contains c <;>
    cases hB : filled_vars_byte.contains c <;>
      cases h9 : Cell.eqNum v (-9999) <;>
        cases h255 : Cell.eqNum v 255 <;>
          simp [hF, hB, h9, h255, eqNum_na]

/-- A cleaned cell is a fixed point of the byte pass. -/
theorem substB_fix_spec (c : String) (v : Cell) :
    substCell filled_vars_byte 255 c (cleanCellSpec c v) =
      cleanCellSpec c v := by
  unfold cleanCellSpec substCell
  cases hF : filled_vars_float.contains c <;>
    cases hB : filled_vars_byte.contains c <;>
      cases h9 : Cell.eqNum v (-9999) <;>
        cases h255 : Cell.eqNum v 255 <;>
          simp [hF, hB, h9, h255, eqNum_na]

/-- `mapCols` of the empty row is empty. -/
theorem mapCols_empty (f : String → Cell → Cell) :
    ∀ cs : List String, mapCols f cs [] = []
  | [] => rfl
  | _ :: _ => rfl

/-- Row `i` of a rowwise-mapped table, for a map sending `[]` to `[]`. -/
theorem getD_map_rows (m : List Cell → List Cell)
    (rows : List (List Cell)) (i : Nat) (hm : m [] = []) :
    (rows.map m).getD i [] = m (rows.getD i []) := by
  rw [List.getD_eq_getElem?_getD, List.getElem?_map,
    List.getD_eq_getElem?_getD]
  cases rows[i]? <;> simp [hm]

/-- C4: a successful sentinel-cleaning run keeps the column list and the
row count, and transforms every cell by the pointwise contract
`cleanCellSpec`: `-9999` becomes missing exactly in `filled_vars_float`
columns, `255` becomes missing exactly in `filled_vars_byte` columns, and
every other cell — unlisted columns and non-sentinel values — is
untouched. -/
theorem c4_clean_exact (t t2 : Table) (h : cleanSentinels t = Except.ok t2) :
    t2.cols = t.cols ∧
    t2.rows.length = t.rows.length ∧
    ∀ i j, (t2.rows.getD i []).getD j Cell.na =
      cleanCellSpec (t.cols.getD j "") ((t.rows.getD i []).getD j Cell.na) := by
  obtain ⟨hca, hcb, hc, hr⟩ := cleanSentinels_ok t t2 h
  refine ⟨hc, by rw [hr, List.length_map], ?_⟩
  intro i j
  rw [hr, getD_map_rows _ _ _ (mapCols_empty _ _), getD_mapCols]
  by_cases hj : j < (t.rows.getD i []).length
  · rw [if_pos hj]
    by_cases hjc : j < t.cols.length
    · rw [if_pos hjc, comb_eq_spec]
    · rw [if_neg hjc, List.getD_eq_default _ _ (Nat.le_of_not_lt hjc),
        cleanCellSpec_empty]
  · rw [if_neg hj, List.getD_eq_default _ _ (Nat.le_of_not_lt hj),
      cleanCellSpec_na]

/-- C4 witness: the characterization applied to the cleaning of the
charitable scenario-A beam. -/
theorem c4_clean_exact_witness :
    tA1.cols = tA0.cols ∧ tA1.rows.length = tA0.rows.length :=
  ⟨(c4_clean_exact tA0 tA1 clean_tA0).1, (c4_clean_exact tA0 tA1 clean_tA0).2.1⟩

/-- C7: sentinel cleaning is idempotent — a second run over an already
cleaned table returns the table unchanged, because the missing marker is
itself neither sentinel. -/
theorem c7_clean_idempotent (t t2 : Table)
    (h : cleanSentinels t = Except.ok t2) :
    cleanSentinels t2 = Except.ok t2 := by
  obtain ⟨hca, hcb, hc, hr⟩ := cleanSentinels_ok t t2 h
  have hrowsF : t2.rows.map
      (mapCols (substCell filled_vars_float (-9999)) t2.cols) = t2.rows := by
    rw [hc, hr, List.map_map]
    refine List.map_congr_left (fun r _ => ?_)
    show mapCols _ t.cols (mapCols _ t.cols r) = _
    rw [mapCols_mapCols]
    exact mapCols_congr _ _
      (fun c v => by simp only [comb_eq_spec, substF_fix_spec]) t.cols r
  have hrowsB : t2.rows.map
      (mapCols (substCell filled_vars_byte 255) t2.cols) = t2.rows := by
    rw [hc, hr, List.map_map]
    refine List.map_congr_left (fun r _ => ?_)
    show mapCols _ t.cols (mapCols _ t.cols r) = _
    rw [mapCols_mapCols]
    exact mapCols_congr _ _
      (fun c v => by simp only [comb_eq_spec, substB_fix_spec]) t.cols r
  have hF : replaceFill filled_vars_float (-9999) t2 = Except.ok t2 := by
    unfold replaceFill
    rw [if_pos (show filled_vars_float.all t2.cols.contains = true by
      rw [hc]; exact hca)]
    rw [hrowsF]
  have hB : replaceFill filled_vars_byte 255 t2 = Except.ok t2 := by
    unfold replaceFill
    rw [if_pos (show filled_vars_byte.all t2.cols.contains = true by
      rw [hc]; exact hcb)]
    rw [hrowsB]
  unfold cleanSentinels
  rw [hF]
  exact hB

/-- C7 witness: a second cleaning of the cleaned charitable scenario-A
beam changes nothing. -/
theorem c7_clean_idempotent_witness : cleanSentinels tA1 = Except.ok tA1 :=
  c7_clean_idempotent tA0 tA1 clean_tA0

/-- C2: a row is in the filtered table exactly when both coordinate
columns hold a non-missing value in that row of the cleaned table; the
filtered rows are precisely that filter of the input rows, the columns are
unchanged, and the row count does not grow. -/
theorem c2_filter_iff (t t2 : Table) (h : filterValidRows t = Except.ok t2) :
    t2.cols = t.cols ∧
    t2.rows = t.rows.filter (fun r =>
      rowNotNull t.cols r "lat_lowestmode" &&
        rowNotNull t.cols r "lon_lowestmode") ∧
    (∀ r, r ∈ t2.rows ↔ r ∈ t.rows ∧
      rowNotNull t.cols r "lat_lowestmode" = true ∧
      rowNotNull t.cols r "lon_lowestmode" = true) ∧
    t2.rows.length ≤ t.rows.length := by
  unfold filterValidRows at h
  split at h
  next hlat =>
    split at h
    next hlon =>
      cases h
      have hrows : ((t.rows.filter
            (fun r => rowNotNull t.cols r "lat_lowestmode")).filter
              (fun r => rowNotNull t.cols r "lon_lowestmode")) =
          t.rows.filter (fun r =>
            rowNotNull t.cols r "lat_lowestmode" &&
              rowNotNull t.cols r "lon_lowestmode") := by
        rw [List.filter_filter]
        exact List.filter_congr (fun r _ => Bool.and_comm _ _)
      refine ⟨rfl, hrows, ?_, ?_⟩
      · intro r
        constructor
        · intro hmem
          rw [hrows] at hmem
          obtain ⟨hmem2, hand⟩ := List.mem_filter.mp hmem
          obtain ⟨h1, h2⟩ := Bool.and_eq_true_iff.mp hand
          exact ⟨hmem2, h1, h2⟩
        · intro ⟨hmem, h1, h2⟩
          rw [hrows]
          exact List.mem_filter.mpr ⟨hmem, by rw [h1, h2]; rfl⟩
      · calc ((t.rows.filter _).filter _).length
            ≤ (t.rows.filter _).length := List.length_filter_le _ _
          _ ≤ t.rows.length := List.length_filter_le _ _
    next hlon => cases h
  next hlat => cases h

/-- C2 witness: the filter characterization applied to a concrete
two-row table whose second row lacks a latitude. -/
theorem c2_filter_iff_witness :
    tC2f.cols = tC2.cols ∧ tC2f.rows.length ≤ tC2.rows.length :=
  ⟨(c2_filter_iff tC2 tC2f (by decide)).1,
    (c2_filter_iff tC2 tC2f (by decide)).2.2.2⟩

/-! ### Structure of the CSV output -/

/-- Inversion of a successful beam loop: every beam succeeded, and the
output is the per-beam CSV blocks with the header flag threaded. -/
theorem writeRows_ok (src : H5Source) :
    ∀ (ks : List String) (b : Bool) (ls : List CsvLine),
      writeRows src ks b = Except.ok ls →
      ∃ ts, processBeams src ks = Except.ok ts ∧ ls = csvOfAux b ts
  | [], _, _, h => ⟨[], rfl, by cases h; rfl⟩
  | k :: ks, b, ls, h => by
    unfold writeRows at h
    cases hpb : processBeam src k with
    | error e => rw [hpb] at h; cases h
    | ok t =>
      rw [hpb] at h
      cases hwr : writeRows src ks false with
      | error e => rw [hwr] at h; cases h
      | ok rest =>
        rw [hwr] at h
        cases h
        obtain ⟨ts, hts, hrest⟩ := writeRows_ok src ks false rest hwr
        refine ⟨t :: ts, ?_, ?_⟩
        · unfold processBeams
          rw [hpb, hts]
        · rw [hrest]
          rfl

/-- Data rows contain no header line. -/
theorem countP_header_dataRows (rows : List (List Cell)) :
    (rows.map CsvLine.dataRow).countP isHeaderLine = 0 := by
  induction rows with
  | nil => rfl
  | cons r rows ih => simp [List.countP_cons, isHeaderLine, ih]

/-- The CSV block of one beam has a header exactly when asked for. -/
theorem countP_header_toCsv (t : Table) (b : Bool) :
    (t.toCsv b).countP isHeaderLine = if b then 1 else 0 := by
  cases b <;>
    simp [Table.toCsv, List.countP_append, List.countP_cons, isHeaderLine,
      countP_header_dataRows]

/-- A headerless block sequence contains no header line. -/
theorem countP_header_csvOfAux_false :
    ∀ ts : List Table, (csvOfAux false ts).countP isHeaderLine = 0
  | [] => rfl
  | t :: ts => by
    unfold csvOfAux
    rw [List.countP_append, countP_header_toCsv,
      countP_header_csvOfAux_false ts]
    rfl

/-- The whole output holds the header exactly once — with the first
processed beam — unless there is no beam at all. -/
theorem countP_header_csvOf (ts : List Table) :
    (csvOf ts).countP isHeaderLine = if ts.isEmpty then 0 else 1 := by
  cases ts with
  | nil => rfl
  | cons t ts =>
    show (Table.toCsv t true ++ csvOfAux false ts).countP isHeaderLine = 1
    rw [List.countP_append, countP_header_toCsv,
      countP_header_csvOfAux_false ts]
    rfl

/-- Dropping the header from one beam's CSV block leaves its data rows. -/
theorem filter_data_toCsv (t : Table) (b : Bool) :
    (t.toCsv b).filter (fun l => !(isHeaderLine l)) =
      t.rows.map CsvLine.dataRow := by
  cases b <;>
    simp [Table.toCsv, List.filter_append, isHeaderLine, List.filter_map,
      Function.comp_def]

/-- Dropping header lines from the block sequence leaves the beam data
rows concatenated in beam order. -/
theorem filter_data_csvOfAux :
    ∀ (b : Bool) (ts : List Table),
      (csvOfAux b ts).filter (fun l => !(isHeaderLine l)) = dataLinesOf ts
  | _, [] => rfl
  | b, t :: ts => by
    unfold csvOfAux dataLinesOf
    rw [List.filter_append, filter_data_toCsv, filter_data_csvOfAux false ts]

/-- C5: a successful run writes, in order, one CSV block per beam key (in
source key order restricted to `BEAM`-prefixed keys): the header appears
exactly once, with the first processed beam — subsequent beams append only
data rows — and the data rows are the per-beam post-filter rows
concatenated in beam order. -/
theorem c5_csv_structure (src : H5Source) (lines : List CsvLine)
    (h : write_csv src = Except.ok lines) :
    ∃ ts : List Table,
      processBeams src (beamKeys src) = Except.ok ts ∧
      lines = csvOf ts ∧
      lines.countP isHeaderLine = (if ts.isEmpty then 0 else 1) ∧
      (∀ t rest, ts = t :: rest →
        lines.head? = some (CsvLine.headerLine t.cols)) ∧
      lines.filter (fun l => !(isHeaderLine l)) = dataLinesOf ts := by
  obtain ⟨ts, hts, hlines⟩ := writeRows_ok src (beamKeys src) true lines h
  refine ⟨ts, hts, hlines, ?_, ?_, ?_⟩
  · rw [hlines]
    exact countP_header_csvOf ts
  · intro t rest hts2
    rw [hlines, hts2]
    show (Table.toCsv t true ++ csvOfAux false rest).head? = _
    simp [Table.toCsv]
  · rw [hlines]
    exact filter_data_csvOfAux true ts

/-- C5 witness: the structure theorem applied to a source whose only key
is not a beam key, a run that succeeds with empty output. -/
theorem c5_csv_structure_witness :
    ∃ ts : List Table,
      processBeams srcNoBeams (beamKeys srcNoBeams) = Except.ok ts ∧
      ([] : List CsvLine) = csvOf ts ∧
      ([] : List CsvLine).countP isHeaderLine =
        (if ts.isEmpty then 0 else 1) ∧
      (∀ t rest, ts = t :: rest →
        ([] : List CsvLine).head? = some (CsvLine.headerLine t.cols)) ∧
      ([] : List CsvLine).filter (fun l => !(isHeaderLine l)) =
        dataLinesOf ts := by
  exact c5_csv_structure srcNoBeams [] rfl

/-- C6: an input path whose basename does not both start with `GEDI` and
end with `.h5` makes the operation log an error and return before opening
either file, so no destination content exists at all; the basename
`GEDI_sample.h5` passes the guard and the run proceeds to produce
destination content. -/
theorem c6_filename_guard :
    (∀ (p : String) (src : H5Source),
      ¬ (strStartsWith (osBasename p) "GEDI" = true ∧
          strEndsWith (osBasename p) ".h5" = true) →
      extract_values p src = ExtractResult.errorNoOutput) ∧
    extract_values "GEDI_sample.h5" srcEmpty =
      ExtractResult.output (Except.ok []) := by
  constructor
  · intro p src hng
    unfold extract_values
    cases ha : strStartsWith (osBasename p) "GEDI" <;>
      cases hb : strEndsWith (osBasename p) ".h5" <;>
        simp [ha, hb] at hng ⊢
  · decide

/-- C6 witness: the guard theorem applied to the prefixless name
`foo.h5`. -/
theorem c6_filename_guard_witness :
    extract_values "foo.h5" srcEmpty = ExtractResult.errorNoOutput :=
  c6_filename_guard.1 "foo.h5" srcEmpty (by decide)

/-- C10: when the filename passes the guard, the destination is opened
(truncated) before any beam is examined; a source without a single
`BEAM`-prefixed key therefore completes normally and leaves an existing,
completely empty destination — not even a header is written. -/
theorem c10_no_beams_empty_output (p : String) (src : H5Source)
    (hstart : strStartsWith (osBasename p) "GEDI" = true)
    (hend : strEndsWith (osBasename p) ".h5" = true)
    (hnb : beamKeys src = []) :
    extract_values p src = ExtractResult.output (Except.ok []) := by
  unfold extract_values
  simp only [hstart, hend, Bool.not_true, Bool.or_self, Bool.false_eq_true,
    if_false]
  unfold write_csv
  rw [hnb]
  rfl

/-- C10 witness: a guard-passing name over a source holding only a
non-beam key. -/
theorem c10_no_beams_empty_output_witness :
    extract_values "GEDI_none.h5" srcNoBeams =
      ExtractResult.output (Except.ok []) :=
  c10_no_beams_empty_output "GEDI_none.h5" srcNoBeams (by decide) (by decide)
    (by decide)

/-- C9: every column of `filled_vars_float` is a float variable of some
declared schema, and every column of `filled_vars_byte` is an integer
variable of some declared schema. -/
theorem c9_fill_lists_in_schema :
    (∀ c ∈ filled_vars_float, c ∈ gedi_vars.float_variables ∨
      ∃ gv ∈ group_vars, c ∈ gv.2.float_variables) ∧
    (∀ c ∈ filled_vars_byte, c ∈ gedi_vars.integer_variables ∨
      ∃ gv ∈ group_vars, c ∈ gv.2.integer_variables) := by
  constructor <;> decide

/-- C8: for a schema with pairwise-disjoint, duplicate-free name sets,
`all_vars` is deterministic and returns the lexicographically sorted,
duplicate-free union of the three declared name sets; `numeric_vars`
likewise returns the sorted union of the integer and float name sets. -/
theorem c8_sorted_vars (g : GediVars)
    (h1 : g.integer_variables.Nodup) (h2 : g.float_variables.Nodup)
    (h3 : g.string_variables.Nodup)
    (d12 : ∀ s ∈ g.integer_variables, s ∉ g.float_variables)
    (d13 : ∀ s ∈ g.integer_variables, s ∉ g.string_variables)
    (d23 : ∀ s ∈ g.float_variables, s ∉ g.string_variables) :
    g.all_vars = g.all_vars ∧
    g.all_vars.Sorted (fun a b => strLe a b = true) ∧
    g.all_vars.Nodup ∧
    (∀ s, s ∈ g.all_vars ↔
      s ∈ g.integer_variables ∨ s ∈ g.float_variables ∨
        s ∈ g.string_variables) ∧
    g.numeric_vars.Sorted (fun a b => strLe a b = true) ∧
    g.numeric_vars.Nodup ∧
    (∀ s, s ∈ g.numeric_vars ↔
      s ∈ g.integer_variables ∨ s ∈ g.float_variables) := by
  haveI : IsTotal String (fun a b => strLe a b = true) := ⟨strLe_total⟩
  haveI : IsTrans String (fun a b => strLe a b = true) :=
    ⟨fun a b c => strLe_trans a b c⟩
  have hpnum : List.Perm g.numeric_vars
      (g.integer_variables ++ g.float_variables) :=
    List.perm_insertionSort _ _
  have hmemnum : ∀ s, s ∈ g.numeric_vars ↔
      s ∈ g.integer_variables ∨ s ∈ g.float_variables := by
    intro s
    rw [hpnum.mem_iff, List.mem_append]
  have hnodupif : (g.integer_variables ++ g.float_variables).Nodup :=
    List.nodup_append.mpr ⟨h1, h2, fun s hs1 hs2 => d12 s hs1 hs2⟩
  have hnodupnum : g.numeric_vars.Nodup := hpnum.nodup_iff.mpr hnodupif
  have hpall : List.Perm g.all_vars
      (g.numeric_vars ++ g.string_variables) :=
    List.perm_insertionSort _ _
  have hmemall : ∀ s, s ∈ g.all_vars ↔
      s ∈ g.integer_variables ∨ s ∈ g.float_variables ∨
        s ∈ g.string_variables := by
    intro s
    rw [hpall.mem_iff, List.mem_append, hmemnum s, or_assoc]
  have hnodupall : g.all_vars.Nodup := by
    refine hpall.nodup_iff.mpr (List.nodup_append.mpr ⟨hnodupnum, h3, ?_⟩)
    intro s hs1 hs2
    rcases (hmemnum s).mp hs1 with hint | hfl
    · exact d13 s hint hs2
    · exact d23 s hfl hs2
  exact ⟨rfl, List.sorted_insertionSort _ _, hnodupall, hmemall,
    List.sorted_insertionSort _ _, hnodupnum, hmemnum⟩

/-- C8 witness: the declared top-level schema `gedi_vars` satisfies the
hypotheses, so its variable lists are duplicate-free. -/
theorem c8_sorted_vars_witness :
    gedi_vars.all_vars.Nodup ∧ gedi_vars.numeric_vars.Nodup :=
  ⟨(c8_sorted_vars gedi_vars (by decide) (by decide) (by decide) (by decide)
      (by decide) (by decide)).2.2.1,
    (c8_sorted_vars gedi_vars (by decide) (by decide) (by decide) (by decide)
      (by decide) (by decide)).2.2.2.2.2.1⟩

/-- C1 is refuted: on a source whose single beam group holds exactly the
three scenario-A datasets (`lat_lowestmode=[12.5, -9999]`,
`lon_lowestmode=[45, 45]`, `agbd=[100, -9999]`), the pipeline does not
emit exactly one data row — it aborts with a `KeyError` at the cleaning
step, emitting nothing, because the other fill-list columns are absent. -/
theorem c1_counterexample : write_csv srcA = Except.error "KeyError" := by
  decide

/-- C1 (amended): the literal scenario-A source aborts with a `KeyError`
at the cleaning step and emits nothing.  On the charitable completion —
the assembled beam table `tA0` holding the scenario columns plus every
fill-list column — cleaning makes only the `agbd` sentinel missing and
the filter then keeps BOTH rows, so exactly two data rows are emitted:
`(12.5, 45, 100)` and `(-9999, 45, missing)`.  The coordinate columns
are in neither fill list, so a coordinate holding the `-9999` sentinel is
never recognized as missing and its row is retained. -/
theorem c1_amended_two_rows :
    write_csv srcA = Except.error "KeyError" ∧
    cleanSentinels tA0 = Except.ok tA1 ∧
    filterValidRows tA1 = Except.ok tA1 ∧
    tA1.rows.length = 2 ∧
    tA1.cell "lat_lowestmode" 0 = Cell.floatV 25 2 ∧
    tA1.cell "lon_lowestmode" 0 = Cell.floatV 45 1 ∧
    tA1.cell "agbd" 0 = Cell.floatV 100 1 ∧
    tA1.cell "lat_lowestmode" 1 = Cell.floatV (-9999) 1 ∧
    tA1.cell "lon_lowestmode" 1 = Cell.floatV 45 1 ∧
    tA1.cell "agbd" 1 = Cell.na := by
  refine ⟨by decide, clean_tA0, filter_tA1, rfl, ?_, ?_, ?_, ?_, ?_, ?_⟩ <;>
    decide

/-- C3 is refuted: a beam lacking schema-declared paths (here every
fill-list path) makes the run abort with a `KeyError` at the cleaning
step — absence is not always handled silently at this layer. -/
theorem c3_counterexample : write_csv srcC3 = Except.error "KeyError" := by
  decide

/-- C3 (amended): an absent schema-declared path is a no-op for the
column-fetch collaborator — the column is silently absent, with no error
at assembly — and the run does not abort, provided the absences leave
every fill-list column (else the cleaning step raises `KeyError`) and
both coordinate columns (else the filter raises `AttributeError`)
present. -/
theorem c3_amended_no_abort :
    (∀ (src : H5Source) (k v : String) (df : Table),
      src.dataset k v = none → hdf_to_df src k v df = df) ∧
    (∀ t t2 : Table,
      cleanSentinels t = Except.ok t2 →
      t2.cols.contains "lat_lowestmode" = true →
      t2.cols.contains "lon_lowestmode" = true →
      ∃ t3, filterValidRows t2 = Except.ok t3) ∧
    (∀ (src : H5Source) (k : String) (t : Table),
      cleanSentinels (assemble src k) = Except.ok t →
      t.cols.contains "lat_lowestmode" = true →
      t.cols.contains "lon_lowestmode" = true →
      ∃ t2, processBeam src k = Except.ok t2) := by
  refine ⟨?_, ?_, ?_⟩
  · intro src k v df hnone
    unfold hdf_to_df
    rw [hnone]
  · intro t t2 hclean hlat hlon
    unfold filterValidRows
    rw [if_pos hlat, if_pos hlon]
    exact ⟨_, rfl⟩
  · intro src k t hclean hlat hlon
    unfold processBeam
    rw [hclean]
    show ∃ t2, (match filterValidRows t with
      | Except.error e => Except.error e
      | Except.ok df2 => Except.ok (add_shot_number_breakdown df2)) =
        Except.ok t2
    unfold filterValidRows
    rw [if_pos hlat, if_pos hlon]
    exact ⟨_, rfl⟩

/-- C3 witness: the charitable assembled beam table holds every fill-list
column and both coordinates, its cleaning succeeds, and the filter then
raises no error. -/
theorem c3_amended_no_abort_witness :
    ∃ t3, filterValidRows tA1 = Except.ok t3 :=
  c3_amended_no_abort.2.1 tA0 tA1 clean_tA0 (by decide) (by decide)

end GediL4A
